import Mathlib

/-!
Verification of the Anthropic adapter translation layer of rust-genai.

The definitions below are a shallow embedding of
`src/adapter/adapters/anthropic/adapter_impl.rs` and
`src/chat/tool/tool_response.rs`. JSON values are modelled by the
inductive `J`; machine integers (`i32`, `u32`) are modelled by `Int` and
`Nat` (token counts are small, no overflow is reachable); `f64` sampling
parameters are modelled by `Rat` (the code only compares them, never does
float arithmetic). Canonical chat-model types (`ChatRequest`,
`MessageContent`, `Usage`, ...) are declared in the repository outside the
two provided files; they are modelled from the spec (section 3) and from
the exhaustive pattern matches the adapter performs on them.
-/

namespace RustGenai

/-- JSON-like values, modelling `serde_json::Value` as used by the adapter.
Objects are association lists in insertion order (the adapter only ever
appends previously-absent keys, so ordering and duplicate behavior of the
Rust map never matter for the properties proved here). -/
inductive J where
  | str (s : String)
  | num (n : Int)
  | bool (b : Bool)
  | arr (items : List J)
  | obj (fields : List (String × J))

/-- Key lookup in an association list (first match wins, like `serde_json`). -/
def kvsGet (key : String) : List (String × J) → Option J
  | [] => none
  | (k, v) :: rest => if key = k then some v else kvsGet key rest

/-- Key lookup on a JSON value; `none` on non-objects. -/
def jGet (key : String) : J → Option J
  | J.obj fields => kvsGet key fields
  | _ => none

/-- Models `value_ext::x_insert` of a fresh key at the top level of a value:
appends the key on objects, fails (returns `none`) on anything else. -/
def x_insert (key : String) (v : J) : J → Option J
  | J.obj fields => some (J.obj (fields ++ [(key, v)]))
  | _ => none

/-- Tests whether a JSON value is an array. -/
def isJArr : J → Bool
  | J.arr _ => true
  | _ => false

/-- Prefix test on character lists (first argument is the needle). -/
def hasPrefixL : List Char → List Char → Bool
  | [], _ => true
  | _ :: _, [] => false
  | a :: as, b :: bs => a == b && hasPrefixL as bs

/-- Substring test on character lists (first argument is the needle). -/
def hasSubstrL (needle : List Char) : List Char → Bool
  | [] => needle.isEmpty
  | c :: rest => hasPrefixL needle (c :: rest) || hasSubstrL needle rest

/-- Models Rust's `str::contains` for string-literal needles. -/
def strContains (hay needle : String) : Bool :=
  hasSubstrL needle.data hay.data

/-- Models Rust's `str::starts_with` for string-literal needles. -/
def strStartsWith (hay needle : String) : Bool :=
  hasPrefixL needle.data hay.data

/-- Models `Vec<&str>::join(sep)` / joining system segments with a separator. -/
def join_sep (sep : String) : List String → String
  | [] => ""
  | [x] => x
  | x :: y :: rest => x ++ sep ++ join_sep sep (y :: rest)

/-- Models Rust's `str::trim_end` (used on the accumulated reasoning text). -/
def trim_end (s : String) : String :=
  ((s.data.reverse.dropWhile Char.isWhitespace).reverse).asString

/-! ## Usage normalization (`into_usage`, adapter_impl.rs lines 414-450) -/

/-- Modelled from the spec (section 3 Usage detail record): the
`PromptTokensDetails` struct of the canonical chat model, which is declared
outside the provided source files. Fields mirror the construction site in
`into_usage`. -/
structure PromptTokensDetails where
  cache_creation_tokens : Option Int
  cached_tokens : Option Int
  audio_tokens : Option Int

/-- Modelled from the spec (section 3 Usage): the canonical `Usage` record,
declared outside the provided source files; fields mirror the construction
site in `into_usage`. `completion_tokens_details` is always `none` for this
adapter, so its payload type is irrelevant and modelled as `Unit`. -/
structure Usage where
  prompt_tokens : Option Int
  prompt_tokens_details : Option PromptTokensDetails
  completion_tokens : Option Int
  completion_tokens_details : Option Unit
  total_tokens : Option Int

/-- The vendor usage payload as read by `into_usage`: each counter is taken
from the JSON body with `x_take(..).unwrap_or(0)`, so an absent field reads
as zero. Counters are `i32` in the source, modelled as `Int`. -/
structure AnthropicUsageValue where
  input_tokens : Option Int
  cache_creation_input_tokens : Option Int
  cache_read_input_tokens : Option Int
  output_tokens : Option Int

/-- Translated from `AnthropicAdapter::into_usage` (adapter_impl.rs 414-450). -/
def into_usage (v : AnthropicUsageValue) : Usage :=
  let input_tokens : Int := v.input_tokens.getD 0
  let cache_creation_input_tokens : Int := v.cache_creation_input_tokens.getD 0
  let cache_read_input_tokens : Int := v.cache_read_input_tokens.getD 0
  let completion_tokens : Int := v.output_tokens.getD 0
  let prompt_tokens := input_tokens + cache_creation_input_tokens + cache_read_input_tokens
  let total_tokens := prompt_tokens + completion_tokens
  let prompt_tokens_details :=
    if cache_creation_input_tokens > 0 ∨ cache_read_input_tokens > 0 then
      some (PromptTokensDetails.mk (some cache_creation_input_tokens) (some cache_read_input_tokens) none)
    else
      none
  Usage.mk (some prompt_tokens) prompt_tokens_details (some completion_tokens) none (some total_tokens)

/-- Modelled from the spec (section 4.5): reading an already-normalized
`Usage` record back as a vendor usage payload. The `Usage` serialization
itself lives outside the provided source files; per the spec equation
`prompt_tokens = fresh + cache_write + cache_read` (and the source comment
that Anthropic's `input_tokens` excludes the two cache counters), the
vendor fresh-input field of a normalized record is `prompt_tokens` minus
the cache counters recorded in its detail record. -/
def usage_as_vendor_value (u : Usage) : AnthropicUsageValue :=
  let cw : Int := (u.prompt_tokens_details.bind (fun d => d.cache_creation_tokens)).getD 0
  let cr : Int := (u.prompt_tokens_details.bind (fun d => d.cached_tokens)).getD 0
  AnthropicUsageValue.mk (some ((u.prompt_tokens.getD 0) - cw - cr)) (some cw) (some cr) u.completion_tokens

/-! ## Canonical chat model

The following types are declared in the repository outside the two provided
source files; they are modelled from the spec (section 3) and from the
exhaustive matches performed on them in `adapter_impl.rs`. -/

/-- Modelled from the spec: image source capability-set of a `ContentPart`. -/
inductive ImageSource where
  | url (u : String)
  | base64 (data : String)

/-- Modelled from the spec: a `ContentPart` (text or image). -/
inductive ContentPart where
  | text (s : String)
  | image (content_type : String) (source : ImageSource)

/-- Modelled from the spec: a `ContentBlock`, the order-preserving content
representation. Structured tool input is a JSON value. -/
inductive ContentBlock where
  | text (text : String) (thought_signature : Option String)
  | thinking (text : String) (signature : Option String)
  | redactedThinking (data : String)
  | toolUse (id : String) (name : String) (input : J) (thought_signature : Option String)
  | toolResult (tool_use_id : String) (content : String)

/-- Modelled from the spec: a `ToolCall` {call_id, function name, structured
arguments}. -/
structure ToolCall where
  call_id : String
  fn_name : String
  fn_arguments : J

/-- Translated from `src/chat/tool/tool_response.rs`: a `ToolResponse`
{call_id, content, optional error flag}. -/
structure ToolResponse where
  call_id : String
  content : String
  is_error : Option Bool

/-- Modelled from the spec: the closed `MessageContent` capability-set. -/
inductive MessageContent where
  | text (s : String)
  | parts (ps : List ContentPart)
  | blocks (bs : List ContentBlock)
  | toolCalls (tcs : List ToolCall)
  | toolResponses (trs : List ToolResponse)

/-- Modelled from the spec: chat roles. -/
inductive ChatRole where
  | system
  | user
  | assistant
  | tool

/-- Modelled from the spec: the per-message cache-control marker; only its
presence is ever inspected by the adapter. -/
inductive CacheControl where
  | ephemeral

/-- Modelled from the spec: per-message options (currently a cache flag). -/
structure MessageOptions where
  cache_control : Option CacheControl

/-- Modelled from the spec: a chat message. -/
structure ChatMessage where
  role : ChatRole
  content : MessageContent
  options : Option MessageOptions

/-- Modelled from the spec: a tool definition {name, input schema, optional
description}. -/
structure Tool where
  name : String
  schema : J
  description : Option String

/-- Modelled from the spec: a canonical chat request. -/
structure ChatRequest where
  system : Option String
  messages : List ChatMessage
  tools : Option (List Tool)

/-- Modelled from the spec: reasoning-effort capability-set; the budget is
a caller-supplied token count. -/
inductive ReasoningEffort where
  | low
  | medium
  | high
  | budget (b : Nat)

/-- Modelled from the spec: the read-only resolved view of chat options.
Each field is the result of the corresponding getter used by the adapter;
`f64` sampling parameters are modelled as rationals. -/
structure ChatOptionsSet where
  temperature : Option Rat
  top_p : Option Rat
  stop_sequences : List String
  max_tokens : Option Nat
  reasoning_effort : Option ReasoningEffort

/-! ## Request translation (`into_anthropic_request_parts`, lines 456-755) -/

/-- Models `msg.options.map(|o| o.cache_control.is_some()).unwrap_or(false)`
(adapter_impl.rs line 473). -/
def msg_cache_flag (options : Option MessageOptions) : Bool :=
  match options with
  | some o => o.cache_control.isSome
  | none => false

/-- The ephemeral 1-hour cache-control annotation value used throughout
request translation. -/
def cache_ctl_value : J :=
  J.obj [("type", J.str "ephemeral"), ("ttl", J.str "1h")]

/-- A plain text segment object. -/
def text_part (content : String) : J :=
  J.obj [("type", J.str "text"), ("text", J.str content)]

/-- A text segment object carrying the cache-control annotation. -/
def cache_text_part (content : String) : J :=
  J.obj [("type", J.str "text"), ("text", J.str content), ("cache_control", cache_ctl_value)]

/-- Models the best-effort `x_insert("cache_control", ...)` whose failure is
swallowed (adapter_impl.rs lines 775-779). -/
def add_cache_to_value (v : J) : J :=
  match x_insert "cache_control" cache_ctl_value v with
  | some v2 => v2
  | none => v

/-- Applies a function to the last element of a list, as the source does via
`parts.get_mut(len - 1)`. -/
def modify_last (f : J → J) : List J → List J
  | [] => []
  | [x] => [f x]
  | x :: y :: rest => x :: modify_last f (y :: rest)

/-- Translated from `apply_cache_control_to_text` (adapter_impl.rs 759-768). -/
def apply_cache_control_to_text (is_cache_control : Bool) (content : String) : J :=
  if is_cache_control then J.arr [cache_text_part content] else J.str content

/-- Translated from `apply_cache_control_to_parts` (adapter_impl.rs 771-782). -/
def apply_cache_control_to_parts (is_cache_control : Bool) (parts : List J) : List J :=
  if is_cache_control && !parts.isEmpty then modify_last add_cache_to_value parts else parts

/-- Translated from the `ContentPart` arm of the User branch
(adapter_impl.rs 487-512). -/
def content_part_to_value : ContentPart → J
  | ContentPart.text t => J.obj [("type", J.str "text"), ("text", J.str t)]
  | ContentPart.image _ (ImageSource.url u) =>
    J.obj [("type", J.str "image"),
           ("source", J.obj [("type", J.str "url"), ("url", J.str u)])]
  | ContentPart.image content_type (ImageSource.base64 data) =>
    J.obj [("type", J.str "image"),
           ("source", J.obj [("type", J.str "base64"), ("media_type", J.str content_type), ("data", J.str data)])]

/-- Translated from the `ContentBlock` arms of the User and Assistant
branches (adapter_impl.rs 518-553 and 590-628, which are identical). -/
def content_block_to_value : ContentBlock → J
  | ContentBlock.text t _ => J.obj [("type", J.str "text"), ("text", J.str t)]
  | ContentBlock.thinking t sig =>
    J.obj ([("type", J.str "thinking"), ("thinking", J.str t)] ++
      (match sig with
       | some s => [("signature", J.str s)]
       | none => []))
  | ContentBlock.redactedThinking data =>
    J.obj [("type", J.str "redacted_thinking"), ("data", J.str data)]
  | ContentBlock.toolUse id name input _ =>
    J.obj [("type", J.str "tool_use"), ("id", J.str id), ("name", J.str name), ("input", input)]
  | ContentBlock.toolResult tool_use_id content =>
    J.obj [("type", J.str "tool_result"), ("tool_use_id", J.str tool_use_id), ("content", J.str content)]

/-- Translated from the `ToolCalls` arm of the Assistant branch
(adapter_impl.rs 571-583). -/
def tool_call_to_value (tc : ToolCall) : J :=
  J.obj [("type", J.str "tool_use"), ("id", J.str tc.call_id), ("name", J.str tc.fn_name), ("input", tc.fn_arguments)]

/-- Translated from the `ToolResponses` arm of the Tool branch
(adapter_impl.rs 638-644); note the source emits `content` before
`tool_use_id` and never reads `is_error`. -/
def tool_response_to_value (tr : ToolResponse) : J :=
  J.obj [("type", J.str "tool_result"), ("content", J.str tr.content), ("tool_use_id", J.str tr.call_id)]

/-- A wire message object `{"role": role, "content": content}`. -/
def wire_msg (role : String) (content : J) : J :=
  J.obj [("role", J.str role), ("content", content)]

/-- Translated from the per-message `match msg.role` of
`into_anthropic_request_parts` (adapter_impl.rs 472-656). The first
component is the contribution to the `systems` list, the second the wire
message pushed to `messages`; each message contributes to at most one of
the two. -/
def translate_message (m : ChatMessage) : Option (String × Bool) × Option J :=
  let flag := msg_cache_flag m.options
  match m.role, m.content with
  | ChatRole.system, MessageContent.text c => (some (c, flag), none)
  | ChatRole.system, _ => (none, none)
  | ChatRole.user, MessageContent.text c =>
    (none, some (wire_msg "user" (apply_cache_control_to_text flag c)))
  | ChatRole.user, MessageContent.parts ps =>
    (none, some (wire_msg "user" (J.arr (apply_cache_control_to_parts flag (ps.map content_part_to_value)))))
  | ChatRole.user, MessageContent.blocks bs =>
    (none, some (wire_msg "user" (J.arr (apply_cache_control_to_parts flag (bs.map content_block_to_value)))))
  | ChatRole.user, MessageContent.toolCalls _ => (none, none)
  | ChatRole.user, MessageContent.toolResponses _ => (none, none)
  | ChatRole.assistant, MessageContent.text c =>
    (none, some (wire_msg "assistant" (apply_cache_control_to_text flag c)))
  | ChatRole.assistant, MessageContent.toolCalls tcs =>
    (none, some (wire_msg "assistant" (J.arr (apply_cache_control_to_parts flag (tcs.map tool_call_to_value)))))
  | ChatRole.assistant, MessageContent.blocks bs =>
    (none, some (wire_msg "assistant" (J.arr (apply_cache_control_to_parts flag (bs.map content_block_to_value)))))
  | ChatRole.assistant, MessageContent.parts _ => (none, none)
  | ChatRole.assistant, MessageContent.toolResponses _ => (none, none)
  | ChatRole.tool, MessageContent.toolResponses trs =>
    (none, some (wire_msg "user" (J.arr (apply_cache_control_to_parts flag (trs.map tool_response_to_value)))))
  | ChatRole.tool, _ => (none, none)

/-- The `systems` list collected by `into_anthropic_request_parts`: the
top-level system text first (never cache-flagged, lines 467-469), then the
contribution of each System-role message, in order. -/
def collected_systems (req : ChatRequest) : List (String × Bool) :=
  (match req.system with
   | some s => [(s, false)]
   | none => []) ++ req.messages.filterMap (fun m => (translate_message m).1)

/-- The wire `messages` array: the wire contributions of the messages, in
order. -/
def wire_messages (req : ChatRequest) : List J :=
  req.messages.filterMap (fun m => (translate_message m).2)

/-- Translated from the last-flag scan of the non-OAuth system branch
(adapter_impl.rs 691-697): walks the list with a running index, replacing
the accumulator whenever a flagged segment is seen. -/
def last_cache_idx_go : List (String × Bool) → Nat → Int → Int
  | [], _, acc => acc
  | (_, flag) :: rest, idx, acc => last_cache_idx_go rest (idx + 1) (if flag then (idx : Int) else acc)

/-- Index of the last cache-flagged segment, `-1` when none (mirrors the
source's `let mut last_cache_idx = -1` loop). -/
def last_cache_idx (systems : List (String × Bool)) : Int :=
  last_cache_idx_go systems 0 (-1)

/-- Translated from the array-building loop of the non-OAuth branch
(adapter_impl.rs 699-711): annotate exactly the position equal to
`last_cache_idx`. -/
def nonoauth_parts_go (cidx : Int) : Nat → List (String × Bool) → List J
  | _, [] => []
  | idx, (content, _) :: rest =>
    (if (idx : Int) = cidx then cache_text_part content else text_part content) ::
      nonoauth_parts_go cidx (idx + 1) rest

/-- The synthetic identity-disclosure segment injected first in OAuth mode
(adapter_impl.rs 667-670). -/
def oauth_identity : J :=
  text_part "You are Claude Code, Anthropic\x27s official CLI for Claude."

/-- Text of a caller-supplied OAuth system segment: the first one is
prefixed with the disclaiming clause (adapter_impl.rs 674-679). -/
def oauth_text (idx : Nat) (content : String) : String :=
  if idx = 0 then "You are NOT Claude Code. " ++ content else content

/-- One caller-supplied OAuth system segment: annotated when explicitly
flagged or in last position (adapter_impl.rs 681-686). -/
def oauth_part (n idx : Nat) (content : String) (flag : Bool) : J :=
  if flag = true ∨ idx = n - 1 then cache_text_part (oauth_text idx content)
  else text_part (oauth_text idx content)

/-- The OAuth caller-segment loop (adapter_impl.rs 673-687). -/
def oauth_parts_go (n : Nat) : Nat → List (String × Bool) → List J
  | _, [] => []
  | idx, (content, flag) :: rest => oauth_part n idx content flag :: oauth_parts_go n (idx + 1) rest

/-- Translated from the system-assembly branch of
`into_anthropic_request_parts` (adapter_impl.rs 660-722). -/
def build_system (systems : List (String × Bool)) (is_oauth : Bool) : Option J :=
  if systems.isEmpty then none
  else if is_oauth then
    some (J.arr (oauth_identity :: oauth_parts_go systems.length 0 systems))
  else
    let lci := last_cache_idx systems
    if lci > 0 then some (J.arr (nonoauth_parts_go lci 0 systems))
    else some (J.str (join_sep "\n\n" (systems.map Prod.fst)))

/-- Translated from the tool-definition mapping (adapter_impl.rs 725-744). -/
def tool_to_value (t : Tool) : J :=
  J.obj ([("name", J.str t.name), ("input_schema", t.schema)] ++
    (match t.description with
     | some d => [("description", J.str d)]
     | none => []))

/-- Translated from the unconditional cache stamp on the last tool
definition (adapter_impl.rs 746-748). -/
def stamp_last_tool : Option (List J) → Option (List J)
  | none => none
  | some ts => some (modify_last add_cache_to_value ts)

/-- The output of `into_anthropic_request_parts` (adapter_impl.rs 784-788). -/
structure AnthropicRequestParts where
  system : Option J
  messages : List J
  tools : Option (List J)

/-- Translated from `AnthropicAdapter::into_anthropic_request_parts`
(adapter_impl.rs 456-755). The `_thinking_enabled` parameter is unused in
the source as well. -/
def into_anthropic_request_parts (chat_req : ChatRequest) (is_oauth : Bool)
    (_thinking_enabled : Bool) : AnthropicRequestParts :=
  AnthropicRequestParts.mk
    (build_system (collected_systems chat_req) is_oauth)
    (wire_messages chat_req)
    (stamp_last_tool (chat_req.tools.map (List.map tool_to_value)))

/-! ## Request construction (`to_web_request_data`, adapter_impl.rs 76-235) -/

/-- Translated from the thinking-capability substring checks
(adapter_impl.rs 111-114). -/
def supports_thinking (model_name : String) : Bool :=
  strContains model_name "claude-opus-4" ||
  strContains model_name "claude-sonnet-4" ||
  strContains model_name "claude-3-7-sonnet" ||
  strContains model_name "claude-haiku-4-5"

/-- Translated from the `thinking_enabled` computation
(adapter_impl.rs 116-126). -/
def thinking_enabled_for (model_name : String) (o : ChatOptionsSet) : Bool :=
  if supports_thinking model_name then
    match o.reasoning_effort with
    | some ReasoningEffort.low => true
    | some ReasoningEffort.medium => true
    | some ReasoningEffort.high => true
    | some (ReasoningEffort.budget b) => decide (0 < b)
    | none => false
  else false

/-- Translated from the model-family default max-tokens table
(adapter_impl.rs 152-167). -/
def default_max_tokens (model_name : String) : Nat :=
  if strContains model_name "claude-sonnet" || strContains model_name "claude-3-7-sonnet" then 64000
  else if strContains model_name "claude-opus-4" then 32000
  else if strContains model_name "claude-3-5" then 8192
  else if strContains model_name "3-opus" || strContains model_name "3-haiku" then 4096
  else 64000

/-- The resolved max-output-token value: the caller-supplied option, else
the model-family default (adapter_impl.rs 152). -/
def resolved_max_tokens (o : ChatOptionsSet) (model_name : String) : Nat :=
  match o.max_tokens with
  | some m => m
  | none => default_max_tokens model_name

/-- Translated from the effort-to-budget table (adapter_impl.rs 173-179). -/
def reasoning_budget (o : ChatOptionsSet) : Nat :=
  match o.reasoning_effort with
  | some ReasoningEffort.low => 4096
  | some ReasoningEffort.medium => 16384
  | some ReasoningEffort.high => 32768
  | some (ReasoningEffort.budget b) => b
  | none => 16384

/-- Translated from `is_claude_4_5` (adapter_impl.rs 410-412). -/
def is_claude_4_5 (model_name : String) : Bool :=
  strContains model_name "-4-5-"

/-- The outgoing request payload. Fields mirror the keys the source
inserts into the JSON payload with `x_insert`; an `Option` field set to
`none` models the key being absent. The `thinking` field holds the
`budget_tokens` of the `{"type": "enabled", "budget_tokens": b}` object;
an empty `stop_sequences` list models the absent key (the source only
inserts it when non-empty). -/
structure AnthropicPayload where
  model : String
  messages : List J
  stream : Bool
  system : Option J
  tools : Option (List J)
  max_tokens : Nat
  thinking : Option Nat
  temperature : Option Rat
  stop_sequences : List String
  top_p : Option Rat

/-- The adapter's request output (`WebRequestData`), with the headers as an
ordered name-value list. -/
structure WebRequestData where
  url : String
  headers : List (String × String)
  payload : AnthropicPayload

/-- The pinned `anthropic-version` header value (adapter_impl.rs 36). -/
def anthropic_version : String := "2023-06-01"

/-- Translated from `AnthropicAdapter::to_web_request_data`
(adapter_impl.rs 76-235) for the chat services. Parameters are flattened
relative to the source: the endpoint is its base URL, the auth data is the
resolved key string, the model identity is its name, and the service type
is the `stream` flag (both chat services share the `messages` URL). -/
def to_web_request_data (base_url api_key model_name : String) (stream : Bool)
    (chat_req : ChatRequest) (o : ChatOptionsSet) : WebRequestData :=
  let is_oauth := strStartsWith api_key "Bearer "
  let headers :=
    if is_oauth then
      [("Authorization", api_key), ("anthropic-version", anthropic_version),
       ("anthropic-beta", "oauth-2025-04-20")]
    else
      [("x-api-key", api_key), ("anthropic-version", anthropic_version)]
  let thinking_enabled := thinking_enabled_for model_name o
  let parts := into_anthropic_request_parts chat_req is_oauth thinking_enabled
  let max_tokens := resolved_max_tokens o model_name
  let thinking :=
    if thinking_enabled then some (min (max (reasoning_budget o) 1024) (max_tokens - 100))
    else none
  let temperature_set := !thinking_enabled && o.temperature.isSome
  let temperature := if thinking_enabled then none else o.temperature
  let top_p :=
    match o.top_p with
    | none => none
    | some p =>
      if thinking_enabled then
        if (95 / 100 : Rat) ≤ p ∧ p ≤ 1 then some p else none
      else if is_claude_4_5 model_name && temperature_set then none
      else some p
  WebRequestData.mk (base_url ++ "messages") headers
    (AnthropicPayload.mk model_name parts.messages stream parts.system parts.tools
      max_tokens thinking temperature o.stop_sequences top_p)

/-! ## Non-stream response decoding (`to_chat_response`, lines 237-366) -/

/-- The typed view of one element of the vendor response `content` array,
as consumed by `to_chat_response`; `other` stands for an unrecognized
`type` tag. -/
inductive RespItem where
  | text (s : String)
  | thinking (text : String) (signature : Option String)
  | redactedThinking (data : String)
  | toolUse (id : String) (name : String) (input : J)
  | other (typ : String)

/-- Translated from the thinking-block scan (adapter_impl.rs 261-266). -/
def has_thinking_blocks (items : List RespItem) : Bool :=
  items.any fun it =>
    match it with
    | RespItem.thinking _ _ => true
    | RespItem.redactedThinking _ => true
    | _ => false

/-- Translated from the block conversion of the thinking branch
(adapter_impl.rs 273-311); unknown types are skipped. -/
def resp_item_to_block : RespItem → Option ContentBlock
  | RespItem.text s => some (ContentBlock.text s none)
  | RespItem.thinking t sig => some (ContentBlock.thinking t sig)
  | RespItem.redactedThinking d => some (ContentBlock.redactedThinking d)
  | RespItem.toolUse id name input => some (ContentBlock.toolUse id name input none)
  | RespItem.other _ => none

/-- The reasoning text accumulated by the thinking branch: every thinking
text followed by a newline (adapter_impl.rs 287-288). -/
def reasoning_text (items : List RespItem) : String :=
  items.foldl
    (fun acc it =>
      match it with
      | RespItem.thinking t _ => acc ++ t ++ "\n"
      | _ => acc)
    ""

/-- The text elements collected by the legacy branch, in order
(adapter_impl.rs 334-335). -/
def legacy_texts (items : List RespItem) : List String :=
  items.filterMap fun it =>
    match it with
    | RespItem.text s => some s
    | _ => none

/-- The tool-use elements collected by the legacy branch, in order
(adapter_impl.rs 336-346). -/
def legacy_tool_calls (items : List RespItem) : List ToolCall :=
  items.filterMap fun it =>
    match it with
    | RespItem.toolUse id name input => some (ToolCall.mk id name input)
    | _ => none

/-- Translated from the content/reasoning computation of
`AnthropicAdapter::to_chat_response` (adapter_impl.rs 255-365): the first
component is the canonical `content` list, the second the
`reasoning_content` field. -/
def to_chat_response_content (items : List RespItem) : List MessageContent × Option String :=
  if has_thinking_blocks items then
    ([MessageContent.blocks (items.filterMap resp_item_to_block)],
     if reasoning_text items = "" then none else some (trim_end (reasoning_text items)))
  else
    ((if (legacy_tool_calls items).isEmpty then []
      else [MessageContent.toolCalls (legacy_tool_calls items)]) ++
     (if (legacy_texts items).isEmpty then []
      else [MessageContent.text (join_sep "\n" (legacy_texts items))]),
     none)

/-! ## Erasure of the `is_error` flag (for the non-influence property) -/

/-- A `ToolResponse` with its `is_error` flag erased. -/
def erase_tool_response (tr : ToolResponse) : ToolResponse :=
  ToolResponse.mk tr.call_id tr.content none

/-- Message content with every `is_error` flag erased. -/
def erase_content : MessageContent → MessageContent
  | MessageContent.toolResponses trs => MessageContent.toolResponses (trs.map erase_tool_response)
  | c => c

/-- A message with every `is_error` flag erased. -/
def erase_message (m : ChatMessage) : ChatMessage :=
  ChatMessage.mk m.role (erase_content m.content) m.options

/-- A request with every `is_error` flag erased; two requests are identical
except for `is_error` fields exactly when their erasures are equal. -/
def erase_request (r : ChatRequest) : ChatRequest :=
  ChatRequest.mk r.system (r.messages.map erase_message) r.tools

/-! ## Helper lemmas -/

/-- The wire rendering of a `ToolResponse` never reads `is_error`. -/
theorem tool_response_to_value_erase (tr : ToolResponse) :
    tool_response_to_value (erase_tool_response tr) = tool_response_to_value tr := rfl

/-- Per-message translation is invariant under `is_error` erasure. -/
theorem translate_message_erase (m : ChatMessage) :
    translate_message (erase_message m) = translate_message m := by
  obtain ⟨role, content, options⟩ := m
  cases role <;> cases content <;>
    simp [translate_message, erase_message, erase_content, List.map_map,
      Function.comp_def, tool_response_to_value_erase]

/-- Request translation is invariant under `is_error` erasure. -/
theorem into_anthropic_request_parts_erase (r : ChatRequest) (b t : Bool) :
    into_anthropic_request_parts (erase_request r) b t = into_anthropic_request_parts r b t := by
  simp only [into_anthropic_request_parts, collected_systems, wire_messages, erase_request,
    List.filterMap_map, Function.comp_def, translate_message_erase]

/-- The three fields of a plain wire tool-result object. -/
theorem tool_result_fields (tr : ToolResponse) :
    (jGet "type" (tool_response_to_value tr),
     jGet "tool_use_id" (tool_response_to_value tr),
     jGet "content" (tool_response_to_value tr))
      = (some (J.str "tool_result"), some (J.str tr.call_id), some (J.str tr.content)) := rfl

/-- The three fields of a cache-annotated wire tool-result object. -/
theorem tool_result_fields_cached (tr : ToolResponse) :
    (jGet "type" (add_cache_to_value (tool_response_to_value tr)),
     jGet "tool_use_id" (add_cache_to_value (tool_response_to_value tr)),
     jGet "content" (add_cache_to_value (tool_response_to_value tr)))
      = (some (J.str "tool_result"), some (J.str tr.call_id), some (J.str tr.content)) := rfl

/-- Field extraction of the rendered tool-result list, unannotated form. -/
theorem tool_result_fields_map (trs : List ToolResponse) :
    (trs.map tool_response_to_value).map
        (fun p => (jGet "type" p, jGet "tool_use_id" p, jGet "content" p))
      = trs.map (fun tr => (some (J.str "tool_result"), some (J.str tr.call_id), some (J.str tr.content))) := by
  rw [List.map_map]
  exact List.map_congr_left fun tr _ => rfl

/-- Field extraction of the rendered tool-result list survives the
best-effort cache annotation of the last element. -/
theorem tool_result_fields_map_cached (trs : List ToolResponse) :
    (modify_last add_cache_to_value (trs.map tool_response_to_value)).map
        (fun p => (jGet "type" p, jGet "tool_use_id" p, jGet "content" p))
      = trs.map (fun tr => (some (J.str "tool_result"), some (J.str tr.call_id), some (J.str tr.content))) := by
  induction trs with
  | nil => rfl
  | cons tr rest ih =>
    cases rest with
    | nil => rfl
    | cons tr2 rest2 =>
      simp only [List.map_cons, modify_last]
      rw [← List.map_cons tool_response_to_value tr2 rest2, ih]
      rfl

/-- A run of unflagged segments leaves the last-flag accumulator unchanged. -/
theorem last_cache_idx_go_unflagged (L : List (String × Bool)) (idx : Nat) (acc : Int)
    (h : ∀ x ∈ L, x.2 = false) :
    last_cache_idx_go L idx acc = acc := by
  induction L generalizing idx acc with
  | nil => rfl
  | cons p rest ih =>
    obtain ⟨c, f⟩ := p
    have hp : f = false := h (c, f) (List.mem_cons_self _ _)
    simp only [last_cache_idx_go, hp, if_neg]
    exact ih (idx + 1) acc fun x hx => h x (List.mem_cons_of_mem _ hx)

/-- Skipping an unflagged prefix only advances the running index. -/
theorem last_cache_idx_go_append (A rest : List (String × Bool)) (idx : Nat) (acc : Int)
    (hA : ∀ x ∈ A, x.2 = false) :
    last_cache_idx_go (A ++ rest) idx acc = last_cache_idx_go rest (idx + A.length) acc := by
  induction A generalizing idx acc with
  | nil => simp
  | cons p A2 ih =>
    obtain ⟨c, f⟩ := p
    have hp : f = false := hA (c, f) (List.mem_cons_self _ _)
    simp only [List.cons_append, last_cache_idx_go, hp, List.append_eq, List.length_cons]
    rw [if_neg Bool.false_ne_true]
    rw [ih (idx + 1) acc fun x hx => hA x (List.mem_cons_of_mem _ hx)]
    congr 1
    omega

/-- Positions past the cache index render as plain segments. -/
theorem nonoauth_parts_go_all_plain (cidx : Int) (L : List (String × Bool)) (idx : Nat)
    (h : cidx < (idx : Int)) :
    nonoauth_parts_go cidx idx L = L.map (fun p => text_part p.1) := by
  induction L generalizing idx with
  | nil => rfl
  | cons p rest ih =>
    obtain ⟨c, f⟩ := p
    have hne : ¬ ((idx : Int) = cidx) := by omega
    simp only [nonoauth_parts_go, if_neg hne, List.map_cons]
    rw [ih (idx + 1) (by push_cast; omega)]

/-- Positions before the cache index render as plain segments; the loop
continues at the advanced index. -/
theorem nonoauth_parts_go_before (cidx : Int) (A rest : List (String × Bool)) (idx : Nat)
    (h : (idx : Int) + A.length ≤ cidx) :
    nonoauth_parts_go cidx idx (A ++ rest)
      = A.map (fun p => text_part p.1) ++ nonoauth_parts_go cidx (idx + A.length) rest := by
  induction A generalizing idx with
  | nil => simp
  | cons p A2 ih =>
    obtain ⟨c, f⟩ := p
    have hne : ¬ ((idx : Int) = cidx) := by
      simp only [List.length_cons] at h
      push_cast at h
      omega
    simp only [List.cons_append, nonoauth_parts_go, if_neg hne, List.map_cons,
      List.length_cons, List.append_eq]
    rw [ih (idx + 1) (by simp only [List.length_cons] at h; push_cast at h ⊢; omega)]
    rw [show idx + 1 + A2.length = idx + (A2.length + 1) from by omega]

/-- The OAuth segment loop preserves length. -/
theorem oauth_parts_go_length (n : Nat) (S : List (String × Bool)) (idx : Nat) :
    (oauth_parts_go n idx S).length = S.length := by
  induction S generalizing idx with
  | nil => rfl
  | cons p rest ih =>
    obtain ⟨c, f⟩ := p
    simp only [oauth_parts_go, List.length_cons, ih (idx + 1)]

/-- Element `i` of the OAuth segment loop output. -/
theorem oauth_parts_go_getD (n : Nat) (S : List (String × Bool)) (idx i : Nat)
    (h : i < S.length) :
    (oauth_parts_go n idx S).getD i (J.str "")
      = oauth_part n (idx + i) (S.getD i ("", false)).1 (S.getD i ("", false)).2 := by
  induction S generalizing idx i with
  | nil => simp at h
  | cons p rest ih =>
    obtain ⟨c, f⟩ := p
    cases i with
    | zero => simp [oauth_parts_go]
    | succ j =>
      have hj : j < rest.length := by simpa using h
      simp only [oauth_parts_go, List.getD_cons_succ]
      rw [ih (idx + 1) j hj]
      congr 1
      omega

/-- Field lookups on a plain text segment object. -/
theorem text_part_fields (c : String) :
    jGet "text" (text_part c) = some (J.str c) ∧ jGet "cache_control" (text_part c) = none :=
  ⟨rfl, rfl⟩

/-- Field lookups on a cache-annotated text segment object. -/
theorem cache_text_part_fields (c : String) :
    jGet "text" (cache_text_part c) = some (J.str c) ∧
      jGet "cache_control" (cache_text_part c) = some cache_ctl_value :=
  ⟨rfl, rfl⟩

/-! ## Claim theorems -/

/-- C3: for every vendor usage payload with fresh-input, cache-write,
cache-read and output token counts, normalization returns
`prompt_tokens = fresh + cache_write + cache_read` and
`total_tokens = prompt_tokens + completion_tokens`, and the prompt-tokens
detail record is present if and only if at least one of the two cache
counters is nonzero. -/
theorem usage_normalization_sums (fresh cw cr out : Int) (hcw : 0 ≤ cw) (hcr : 0 ≤ cr) :
    (into_usage (AnthropicUsageValue.mk (some fresh) (some cw) (some cr) (some out))).prompt_tokens
        = some (fresh + cw + cr) ∧
      (into_usage (AnthropicUsageValue.mk (some fresh) (some cw) (some cr) (some out))).total_tokens
        = some ((fresh + cw + cr) + out) ∧
      ((into_usage (AnthropicUsageValue.mk (some fresh) (some cw) (some cr) (some out))).prompt_tokens_details.isSome
        ↔ (cw ≠ 0 ∨ cr ≠ 0)) := by
  refine ⟨rfl, rfl, ?_⟩
  simp only [into_usage, Option.getD_some]
  by_cases h : cw > 0 ∨ cr > 0
  · simp only [if_pos h, Option.isSome_some, true_iff]
    omega
  · simp only [if_neg h, Option.isSome_none, Bool.false_eq_true, false_iff]
    omega

/-- Witness for C3 at fresh = 10, cache-write = 5, cache-read = 0, output = 2. -/
theorem usage_normalization_sums_witness :
    (into_usage (AnthropicUsageValue.mk (some 10) (some 5) (some 0) (some 2))).prompt_tokens
        = some (10 + 5 + 0) ∧
      (into_usage (AnthropicUsageValue.mk (some 10) (some 5) (some 0) (some 2))).total_tokens
        = some ((10 + 5 + 0) + 2) ∧
      ((into_usage (AnthropicUsageValue.mk (some 10) (some 5) (some 0) (some 2))).prompt_tokens_details.isSome
        ↔ ((5 : Int) ≠ 0 ∨ (0 : Int) ≠ 0)) :=
  usage_normalization_sums 10 5 0 2 (by norm_num) (le_refl 0)

/-- C9: usage normalization is idempotent on `total_tokens`: re-normalizing
an already-normalized record (read back as a vendor payload, with its
detail fields populated) yields the same `total_tokens`. -/
theorem usage_normalization_total_idempotent (v : AnthropicUsageValue)
    (_h : (into_usage v).prompt_tokens_details.isSome = true) :
    (into_usage (usage_as_vendor_value (into_usage v))).total_tokens
      = (into_usage v).total_tokens := by
  by_cases hc : (v.cache_creation_input_tokens.getD 0 : Int) > 0 ∨ (v.cache_read_input_tokens.getD 0 : Int) > 0
  · simp only [into_usage, usage_as_vendor_value, if_pos hc, Option.bind_some,
      Option.getD_some, Option.some.injEq]
    ring
  · simp only [into_usage, usage_as_vendor_value, if_neg hc, Option.bind_none,
      Option.getD_some, Option.getD_none, Option.some.injEq]
    norm_num

/-- Witness for C9 at a payload with nonzero cache counters. -/
theorem usage_normalization_total_idempotent_witness :
    (into_usage (usage_as_vendor_value (into_usage (AnthropicUsageValue.mk (some 10) (some 5) (some 3) (some 2))))).total_tokens
      = (into_usage (AnthropicUsageValue.mk (some 10) (some 5) (some 3) (some 2))).total_tokens :=
  usage_normalization_total_idempotent (AnthropicUsageValue.mk (some 10) (some 5) (some 3) (some 2)) rfl

/-- C4: when the response content array has no thinking or
redacted-thinking element, decoding produces at most two content entries:
all tool-use elements collected in order into one ToolCalls entry placed
before the single Text entry that joins all text elements by newline, and
no reasoning content. -/
theorem legacy_decode_tool_calls_before_text (items : List RespItem)
    (h : has_thinking_blocks items = false) :
    (to_chat_response_content items).1 =
        (if (legacy_tool_calls items).isEmpty then []
         else [MessageContent.toolCalls (legacy_tool_calls items)]) ++
        (if (legacy_texts items).isEmpty then []
         else [MessageContent.text (join_sep "\n" (legacy_texts items))]) ∧
      (to_chat_response_content items).1.length ≤ 2 ∧
      (to_chat_response_content items).2 = none := by
  refine ⟨?_, ?_, ?_⟩
  · simp [to_chat_response_content, h]
  · simp only [to_chat_response_content, h, Bool.false_eq_true, if_false]
    split <;> split <;> simp
  · simp [to_chat_response_content, h]

/-- Witness for C4 on an interleaved text / tool-use / text content array. -/
theorem legacy_decode_tool_calls_before_text_witness :
    (to_chat_response_content [RespItem.text "a", RespItem.toolUse "i" "f" (J.str "x"), RespItem.text "b"]).1 =
        (if (legacy_tool_calls [RespItem.text "a", RespItem.toolUse "i" "f" (J.str "x"), RespItem.text "b"]).isEmpty then []
         else [MessageContent.toolCalls (legacy_tool_calls [RespItem.text "a", RespItem.toolUse "i" "f" (J.str "x"), RespItem.text "b"])]) ++
        (if (legacy_texts [RespItem.text "a", RespItem.toolUse "i" "f" (J.str "x"), RespItem.text "b"]).isEmpty then []
         else [MessageContent.text (join_sep "\n" (legacy_texts [RespItem.text "a", RespItem.toolUse "i" "f" (J.str "x"), RespItem.text "b"]))]) ∧
      (to_chat_response_content [RespItem.text "a", RespItem.toolUse "i" "f" (J.str "x"), RespItem.text "b"]).1.length ≤ 2 ∧
      (to_chat_response_content [RespItem.text "a", RespItem.toolUse "i" "f" (J.str "x"), RespItem.text "b"]).2 = none :=
  legacy_decode_tool_calls_before_text
    [RespItem.text "a", RespItem.toolUse "i" "f" (J.str "x"), RespItem.text "b"] rfl

/-- C5: a Tool-role message whose content is a sequence of ToolResponses is
emitted as exactly one wire message of role "user" whose content is an
array of tool_result objects, one per ToolResponse in the same order, each
pairing that response's call_id (as tool_use_id) with its content. -/
theorem tool_responses_single_user_message (trs : List ToolResponse) (o : Option MessageOptions) :
    ∃ ps, (translate_message (ChatMessage.mk ChatRole.tool (MessageContent.toolResponses trs) o)).2
        = some (J.obj [("role", J.str "user"), ("content", J.arr ps)]) ∧
      ps.map (fun p => (jGet "type" p, jGet "tool_use_id" p, jGet "content" p))
        = trs.map (fun tr => (some (J.str "tool_result"), some (J.str tr.call_id), some (J.str tr.content))) := by
  refine ⟨apply_cache_control_to_parts (msg_cache_flag o) (trs.map tool_response_to_value), rfl, ?_⟩
  cases hf : msg_cache_flag o with
  | false => exact tool_result_fields_map trs
  | true =>
    cases trs with
    | nil => rfl
    | cons tr rest => exact tool_result_fields_map_cached (tr :: rest)

/-- C6 (amended): a System-role message is never emitted as a wire message;
its content joins the system assembly only in the Text case, and every
other content variant is dropped from the assembly as well. -/
theorem system_role_never_emitted (o : Option MessageOptions) (s : String)
    (ps : List ContentPart) (bs : List ContentBlock) (tcs : List ToolCall)
    (trs : List ToolResponse) :
    (∀ c : MessageContent, (translate_message (ChatMessage.mk ChatRole.system c o)).2 = none) ∧
      (translate_message (ChatMessage.mk ChatRole.system (MessageContent.text s) o)).1
        = some (s, msg_cache_flag o) ∧
      (translate_message (ChatMessage.mk ChatRole.system (MessageContent.parts ps) o)).1 = none ∧
      (translate_message (ChatMessage.mk ChatRole.system (MessageContent.blocks bs) o)).1 = none ∧
      (translate_message (ChatMessage.mk ChatRole.system (MessageContent.toolCalls tcs) o)).1 = none ∧
      (translate_message (ChatMessage.mk ChatRole.system (MessageContent.toolResponses trs) o)).1 = none ∧
      (∀ (req : ChatRequest) (b t : Bool),
        (into_anthropic_request_parts req b t).messages = wire_messages req) := by
  refine ⟨?_, rfl, rfl, rfl, rfl, rfl, fun req b t => rfl⟩
  intro c
  cases c <;> rfl

/-- C6 counterexample: a System-role message with Parts content is dropped
entirely: it reaches neither the system assembly (the system field stays
absent) nor the wire messages array, contradicting the claim that the
content of every System message is merged into the system assembly. -/
theorem system_parts_message_not_merged :
    (into_anthropic_request_parts
        (ChatRequest.mk none
          [ChatMessage.mk ChatRole.system (MessageContent.parts [ContentPart.text "x"]) none] none)
        false false).system = none ∧
      (into_anthropic_request_parts
        (ChatRequest.mk none
          [ChatMessage.mk ChatRole.system (MessageContent.parts [ContentPart.text "x"]) none] none)
        false false).messages = [] :=
  ⟨rfl, rfl⟩

/-- C7: when reasoning is enabled the temperature key is absent from the
payload no matter what the caller set, and a caller-supplied top_p is
forwarded exactly when 0.95 ≤ top_p ≤ 1 (out-of-band values are dropped,
and the translation is total, so no error is raised). -/
theorem reasoning_omits_temperature_and_bands_top_p
    (base_url api_key model_name : String) (stream : Bool) (req : ChatRequest)
    (o : ChatOptionsSet) (p : Rat)
    (henabled : thinking_enabled_for model_name o = true) (hp : o.top_p = some p) :
    (to_web_request_data base_url api_key model_name stream req o).payload.temperature = none ∧
      ((to_web_request_data base_url api_key model_name stream req o).payload.top_p = some p
        ↔ ((95 / 100 : Rat) ≤ p ∧ p ≤ 1)) := by
  simp only [to_web_request_data, henabled, hp]
  constructor
  · simp
  · by_cases hband : (95 / 100 : Rat) ≤ p ∧ p ≤ 1
    · simp [hband]
    · simp [hband]

/-- Witness for C7: reasoning enabled, caller temperature 1/2 and
top_p 97/100. -/
theorem reasoning_omits_temperature_and_bands_top_p_witness :
    (to_web_request_data "https://api.anthropic.com/v1/" "k" "claude-sonnet-4-20250514" false
        (ChatRequest.mk none [] none)
        (ChatOptionsSet.mk (some (1 / 2)) (some (97 / 100)) [] none (some ReasoningEffort.low))).payload.temperature = none ∧
      ((to_web_request_data "https://api.anthropic.com/v1/" "k" "claude-sonnet-4-20250514" false
        (ChatRequest.mk none [] none)
        (ChatOptionsSet.mk (some (1 / 2)) (some (97 / 100)) [] none (some ReasoningEffort.low))).payload.top_p = some (97 / 100)
        ↔ ((95 / 100 : Rat) ≤ 97 / 100 ∧ (97 / 100 : Rat) ≤ 1)) :=
  reasoning_omits_temperature_and_bands_top_p "https://api.anthropic.com/v1/" "k"
    "claude-sonnet-4-20250514" false (ChatRequest.mk none [] none)
    (ChatOptionsSet.mk (some (1 / 2)) (some (97 / 100)) [] none (some ReasoningEffort.low))
    (97 / 100) rfl rfl

/-- C10: the `is_error` flag of a ToolResponse never influences the wire
output: two requests that agree after erasing every `is_error` flag
translate to identical URL, headers and payload. -/
theorem is_error_never_influences_payload (base_url api_key model_name : String)
    (stream : Bool) (r1 r2 : ChatRequest) (o : ChatOptionsSet)
    (h : erase_request r1 = erase_request r2) :
    to_web_request_data base_url api_key model_name stream r1 o
      = to_web_request_data base_url api_key model_name stream r2 o := by
  have hp : ∀ b t, into_anthropic_request_parts r1 b t = into_anthropic_request_parts r2 b t := by
    intro b t
    rw [← into_anthropic_request_parts_erase r1 b t, h, into_anthropic_request_parts_erase r2 b t]
  simp only [to_web_request_data, hp]

/-- Witness for C10: two requests identical except for one `is_error`
flag translate identically. -/
theorem is_error_never_influences_payload_witness :
    to_web_request_data "https://api.anthropic.com/v1/" "k" "claude-3-5-haiku-latest" false
        (ChatRequest.mk none
          [ChatMessage.mk ChatRole.tool
            (MessageContent.toolResponses [ToolResponse.mk "c1" "out" (some true)]) none] none)
        (ChatOptionsSet.mk none none [] none none)
      = to_web_request_data "https://api.anthropic.com/v1/" "k" "claude-3-5-haiku-latest" false
        (ChatRequest.mk none
          [ChatMessage.mk ChatRole.tool
            (MessageContent.toolResponses [ToolResponse.mk "c1" "out" none]) none] none)
        (ChatOptionsSet.mk none none [] none none) :=
  is_error_never_influences_payload "https://api.anthropic.com/v1/" "k" "claude-3-5-haiku-latest"
    false
    (ChatRequest.mk none
      [ChatMessage.mk ChatRole.tool
        (MessageContent.toolResponses [ToolResponse.mk "c1" "out" (some true)]) none] none)
    (ChatRequest.mk none
      [ChatMessage.mk ChatRole.tool
        (MessageContent.toolResponses [ToolResponse.mk "c1" "out" none]) none] none)
    (ChatOptionsSet.mk none none [] none none) rfl

/-- C1 counterexample: with reasoning enabled and a caller-supplied
max_tokens of 500, the emitted budget_tokens is 400, which violates the
claimed invariant 1024 ≤ budget_tokens (the ceiling is applied after the
floor, so small resolved max-token values undercut the floor). -/
theorem thinking_budget_floor_violated_at_small_max_tokens :
    (to_web_request_data "https://api.anthropic.com/v1/" "k" "claude-sonnet-4-20250514" false
        (ChatRequest.mk none [] none)
        (ChatOptionsSet.mk none none [] (some 500) (some ReasoningEffort.low))).payload.thinking
      = some 400 ∧
      (400 : Nat) < 1024 ∧
      resolved_max_tokens
          (ChatOptionsSet.mk none none [] (some 500) (some ReasoningEffort.low))
          "claude-sonnet-4-20250514" = 500 :=
  ⟨rfl, by norm_num, rfl⟩

/-- C1 (amended): with reasoning enabled, the emitted budget_tokens equals
the effort-derived budget clamped to the floor 1024 and then to the
ceiling max_tokens − 100; whenever the resolved max_tokens is at least
1124 this value satisfies 1024 ≤ budget ≤ max_tokens − 100, and effort
Budget(500) yields exactly 1024. -/
theorem thinking_budget_clamped (base_url api_key model_name : String) (stream : Bool)
    (req : ChatRequest) (o : ChatOptionsSet)
    (henabled : thinking_enabled_for model_name o = true)
    (hmax : 1124 ≤ resolved_max_tokens o model_name) :
    (to_web_request_data base_url api_key model_name stream req o).payload.thinking
        = some (min (max (reasoning_budget o) 1024) (resolved_max_tokens o model_name - 100)) ∧
      1024 ≤ min (max (reasoning_budget o) 1024) (resolved_max_tokens o model_name - 100) ∧
      min (max (reasoning_budget o) 1024) (resolved_max_tokens o model_name - 100)
        ≤ resolved_max_tokens o model_name - 100 ∧
      (o.reasoning_effort = some (ReasoningEffort.budget 500) →
        min (max (reasoning_budget o) 1024) (resolved_max_tokens o model_name - 100) = 1024) := by
  refine ⟨?_, ?_, ?_, ?_⟩
  · simp [to_web_request_data, henabled]
  · omega
  · omega
  · intro hb
    have hrb : reasoning_budget o = 500 := by simp [reasoning_budget, hb]
    omega

/-- Witness for C1 at effort Budget(500) with the default 64000 max-token
tier. -/
theorem thinking_budget_clamped_witness :
    (to_web_request_data "https://api.anthropic.com/v1/" "k" "claude-sonnet-4-20250514" false
        (ChatRequest.mk none [] none)
        (ChatOptionsSet.mk none none [] none (some (ReasoningEffort.budget 500)))).payload.thinking
        = some (min (max (reasoning_budget (ChatOptionsSet.mk none none [] none (some (ReasoningEffort.budget 500)))) 1024)
            (resolved_max_tokens (ChatOptionsSet.mk none none [] none (some (ReasoningEffort.budget 500))) "claude-sonnet-4-20250514" - 100)) ∧
      1024 ≤ min (max (reasoning_budget (ChatOptionsSet.mk none none [] none (some (ReasoningEffort.budget 500)))) 1024)
          (resolved_max_tokens (ChatOptionsSet.mk none none [] none (some (ReasoningEffort.budget 500))) "claude-sonnet-4-20250514" - 100) ∧
      min (max (reasoning_budget (ChatOptionsSet.mk none none [] none (some (ReasoningEffort.budget 500)))) 1024)
          (resolved_max_tokens (ChatOptionsSet.mk none none [] none (some (ReasoningEffort.budget 500))) "claude-sonnet-4-20250514" - 100)
        ≤ resolved_max_tokens (ChatOptionsSet.mk none none [] none (some (ReasoningEffort.budget 500))) "claude-sonnet-4-20250514" - 100 ∧
      ((ChatOptionsSet.mk none none [] none (some (ReasoningEffort.budget 500))).reasoning_effort
          = some (ReasoningEffort.budget 500) →
        min (max (reasoning_budget (ChatOptionsSet.mk none none [] none (some (ReasoningEffort.budget 500)))) 1024)
            (resolved_max_tokens (ChatOptionsSet.mk none none [] none (some (ReasoningEffort.budget 500))) "claude-sonnet-4-20250514" - 100) = 1024) :=
  thinking_budget_clamped "https://api.anthropic.com/v1/" "k" "claude-sonnet-4-20250514" false
    (ChatRequest.mk none [] none)
    (ChatOptionsSet.mk none none [] none (some (ReasoningEffort.budget 500)))
    rfl (by decide)

/-- C2 counterexample: two system segments with the only cache flag at
index 0 (reachable when the request has no top-level system text and the
first System message is flagged) produce the joined-string form with no
annotation, not the claimed array of length 2 annotated at index 0. -/
theorem system_flag_at_index_zero_joins :
    (into_anthropic_request_parts
        (ChatRequest.mk none
          [ChatMessage.mk ChatRole.system (MessageContent.text "a")
            (some (MessageOptions.mk (some CacheControl.ephemeral))),
           ChatMessage.mk ChatRole.system (MessageContent.text "b") none] none)
        false false).system = some (J.str "a\n\nb") ∧
      Option.map isJArr
        (into_anthropic_request_parts
          (ChatRequest.mk none
            [ChatMessage.mk ChatRole.system (MessageContent.text "a")
              (some (MessageOptions.mk (some CacheControl.ephemeral))),
             ChatMessage.mk ChatRole.system (MessageContent.text "b") none] none)
          false false).system = some false :=
  ⟨rfl, rfl⟩

/-- C2 (amended): in non-OAuth mode, for segments with exactly one cache
flag at index k with 1 ≤ k < N−1, the system field is the array of the N
segment texts in order with the cache annotation exactly at index k; and
with no flag at all the system field is the single string joining the
texts with blank lines. (A lone flag at index 0 instead falls back to the
joined-string form, which is what the counterexample forces the claim to
exclude.) -/
theorem system_cache_flag_placement (A : List (String × Bool)) (t : String)
    (B : List (String × Bool)) (S : List (String × Bool))
    (hA : ∀ x ∈ A, x.2 = false) (hAne : A ≠ [])
    (hB : ∀ x ∈ B, x.2 = false) (_hBne : B ≠ [])
    (hS : ∀ x ∈ S, x.2 = false) (hSne : S ≠ []) :
    build_system (A ++ (t, true) :: B) false
        = some (J.arr (A.map (fun p => text_part p.1) ++
            cache_text_part t :: B.map (fun p => text_part p.1))) ∧
      build_system S false = some (J.str (join_sep "\n\n" (S.map Prod.fst))) := by
  constructor
  · have hlci : last_cache_idx (A ++ (t, true) :: B) = (A.length : Int) := by
      unfold last_cache_idx
      rw [last_cache_idx_go_append A ((t, true) :: B) 0 (-1) hA]
      simp only [last_cache_idx_go, if_pos rfl, Nat.zero_add]
      exact last_cache_idx_go_unflagged B (A.length + 1) (A.length : Int) hB
    have hne : (A ++ (t, true) :: B).isEmpty = false := by
      cases A <;> simp
    have hpos : (0 : Int) < (A.length : Int) := by
      cases A with
      | nil => exact absurd rfl hAne
      | cons a A2 => simp only [List.length_cons]; push_cast; omega
    unfold build_system
    rw [hne]
    simp only [Bool.false_eq_true, if_false, hlci, if_pos hpos]
    rw [nonoauth_parts_go_before (A.length : Int) A ((t, true) :: B) 0 (by simp)]
    simp only [Nat.zero_add, nonoauth_parts_go, if_pos rfl]
    rw [nonoauth_parts_go_all_plain (A.length : Int) B (A.length + 1) (by push_cast; omega)]
    simp
  · have hlci : last_cache_idx S = -1 := last_cache_idx_go_unflagged S 0 (-1) hS
    have hne : S.isEmpty = false := by
      cases S with
      | nil => exact absurd rfl hSne
      | cons a S2 => rfl
    unfold build_system
    rw [hne]
    simp only [Bool.false_eq_true, if_false, hlci]
    norm_num

/-- Witness for C2: three segments flagged only in the middle give the
annotated array; three unflagged segments give the joined string. -/
theorem system_cache_flag_placement_witness :
    build_system ([("s1", false)] ++ ("s2", true) :: [("s3", false)]) false
        = some (J.arr ([("s1", false)].map (fun p => text_part p.1) ++
            cache_text_part "s2" :: [("s3", false)].map (fun p => text_part p.1))) ∧
      build_system [("u1", false), ("u2", false)] false
        = some (J.str (join_sep "\n\n" ([("u1", false), ("u2", false)].map Prod.fst))) :=
  system_cache_flag_placement [("s1", false)] "s2" [("s3", false)]
    [("u1", false), ("u2", false)]
    (by decide) (by decide) (by decide) (by decide) (by decide) (by decide)

/-- C8: in OAuth mode with a non-empty segment list the system field is an
array whose head is the synthetic identity-disclosure segment, the first
caller segment's text is prefixed with the disclaiming clause, and the
ephemeral 1-hour cache annotation sits exactly on the explicitly flagged
caller segments and on the last caller segment. -/
theorem oauth_system_array_shape (S : List (String × Bool)) (hne : S ≠ []) :
    ∃ l, build_system S true = some (J.arr (oauth_identity :: l)) ∧
      l.length = S.length ∧
      ∀ i, i < S.length →
        jGet "text" (l.getD i (J.str ""))
            = some (J.str (if i = 0 then "You are NOT Claude Code. " ++ (S.getD i ("", false)).1
              else (S.getD i ("", false)).1)) ∧
          jGet "cache_control" (l.getD i (J.str ""))
            = (if (S.getD i ("", false)).2 = true ∨ i = S.length - 1 then some cache_ctl_value
              else none) := by
  have hempty : S.isEmpty = false := by
    cases S with
    | nil => exact absurd rfl hne
    | cons a S2 => rfl
  refine ⟨oauth_parts_go S.length 0 S, ?_, oauth_parts_go_length S.length S 0, ?_⟩
  · unfold build_system
    rw [hempty]
    simp
  · intro i hi
    rw [oauth_parts_go_getD S.length S 0 i hi]
    simp only [Nat.zero_add]
    unfold oauth_part oauth_text
    by_cases hc : (S.getD i ("", false)).2 = true ∨ i = S.length - 1
    · rw [if_pos hc, if_pos hc]
      exact ⟨(cache_text_part_fields _).1, (cache_text_part_fields _).2⟩
    · rw [if_neg hc, if_neg hc]
      exact ⟨(text_part_fields _).1, (text_part_fields _).2⟩

/-- Witness for C8 on two caller segments, the first flagged. -/
theorem oauth_system_array_shape_witness :
    ∃ l, build_system [("h1", true), ("h2", false)] true = some (J.arr (oauth_identity :: l)) ∧
      l.length = [("h1", true), ("h2", false)].length ∧
      ∀ i, i < [("h1", true), ("h2", false)].length →
        jGet "text" (l.getD i (J.str ""))
            = some (J.str (if i = 0 then
                "You are NOT Claude Code. " ++ ([("h1", true), ("h2", false)].getD i ("", false)).1
              else ([("h1", true), ("h2", false)].getD i ("", false)).1)) ∧
          jGet "cache_control" (l.getD i (J.str ""))
            = (if ([("h1", true), ("h2", false)].getD i ("", false)).2 = true
                  ∨ i = [("h1", true), ("h2", false)].length - 1 then some cache_ctl_value
              else none) :=
  oauth_system_array_shape [("h1", true), ("h2", false)] (by decide)

end RustGenai

